import Mathlib

/- Shallow embedding of the VisionService document text extraction pipeline
   (vision.service.ts).  Network and library effects are determinized through
   an explicit environment (`VisionEnv`): the OCR provider's response is a
   function of the request payload and the attempt index, downloads and the
   pdf-parse / pdf-lib library views of a PDF buffer are supplied by the
   environment.  Machine behavior (string trimming, length thresholds, retry
   loops, batch splitting and reassembly) is translated from the source. -/

namespace SynapseyVision

/-- JavaScript `String.prototype.trim`: drop leading and trailing
whitespace.  (Defined over the character list so that it reduces inside the
kernel; `String.trim` of core is observably the same function.) -/
def jsTrim (s : String) : String :=
  String.mk (((s.data.dropWhile Char.isWhitespace).reverse.dropWhile
    Char.isWhitespace).reverse)

/-- JavaScript `String.prototype.toLowerCase` (ASCII range). -/
def jsToLower (s : String) : String := String.mk (s.data.map Char.toLower)

/-- JavaScript `String.prototype.split` with a one-character separator. -/
def splitOnChar (c : Char) : List Char → List (List Char)
  | [] => [[]]
  | x :: xs =>
      let r := splitOnChar c xs
      if x == c then [] :: r
      else
        match r with
        | [] => [[x]]
        | seg :: segs => (x :: seg) :: segs

/-- Whether `pat` is a leading segment of the list. -/
def startsWithList : List Char → List Char → Bool
  | [], _ => true
  | _ :: _, [] => false
  | p :: ps, x :: xs => p == x && startsWithList ps xs

/-- JavaScript `String.prototype.includes`: `pat` occurs somewhere. -/
def containsSeq (pat : List Char) : List Char → Bool
  | [] => pat.isEmpty
  | x :: xs => startsWithList pat (x :: xs) || containsSeq pat xs

/-- Errors thrown inside the service: `httpException` models a NestJS
`HttpException` carrying a message and a numeric status; `jsError` models any
other thrown JavaScript error (network failure, library error). -/
inductive VError where
  | httpException (message : String) (status : Nat)
  | jsError (message : String)
deriving DecidableEq, Repr

/-- The `.message` of a thrown error. -/
def VError.message : VError → String
  | .httpException m _ => m
  | .jsError m => m

/-- Retry-abort test of the image path: `error instanceof HttpException &&
error.getStatus() < 500` (vision.service.ts line 407). -/
def isImageTerminal : VError → Bool
  | .httpException _ status => status < 500
  | .jsError _ => false

/-- Retry-abort test of the PDF path: `error instanceof HttpException &&
(error.getStatus() < 500 || error.getStatus() === 503)` (line 289). -/
def isPdfTerminal : VError → Bool
  | .httpException _ status => status < 500 || status == 503
  | .jsError _ => false

/-- `lastError?.message` where `lastError : Error | null`. -/
def lastErrorMsg : Option VError → String
  | some e => e.message
  | none => "undefined"

/-- The synthesized failure thrown after the image retry loop exhausts
(line 418). -/
def imageExhausted (maxRetries : Nat) (lastError : Option VError) : VError :=
  .httpException
    ("Failed to extract text after " ++ toString (maxRetries + 1) ++
      " attempts: " ++ lastErrorMsg lastError) 500

/-- The synthesized failure thrown after the PDF retry loop exhausts
(line 300). -/
def pdfExhausted (maxRetries : Nat) (lastError : Option VError) : VError :=
  .httpException
    ("Failed to extract text from PDF after " ++ toString (maxRetries + 1) ++
      " attempts: " ++ lastErrorMsg lastError) 500

/-- One element of the provider's `textAnnotations` array. -/
structure VisionTokenAnn where
  description : Option String
deriving DecidableEq, Repr

/-- One element of the provider's `responses` array: `error?.message`,
`fullTextAnnotation?.text` (collapsed to one option) and `textAnnotations`. -/
structure VisionSingle where
  error : Option String
  fullTextAnn : Option String
  textAnns : Option (List VisionTokenAnn)
deriving DecidableEq, Repr

/-- The provider's JSON body: `responses` may be absent. -/
structure VisionBody where
  responses : Option (List VisionSingle)
deriving DecidableEq, Repr

/-- Outcome of one `fetch` of the OCR provider: the fetch promise rejected,
the response was not ok (carrying `response.status`, `response.statusText`
and `errorData.error?.message || ''`), or an ok JSON body. -/
inductive ProviderResponse where
  | fetchFailed (message : String)
  | notOk (status : Nat) (statusText : String) (errorMessage : String)
  | okJson (body : VisionBody)
deriving DecidableEq, Repr

/-- The `HttpException` built from a non-ok provider response (lines
367-370): note the status is always `HttpStatus.BAD_GATEWAY` (502). -/
def visionApiNotOkError (status : Nat) (statusText errorMessage : String) : VError :=
  .httpException
    ("Google Vision API error: " ++ toString status ++ " " ++ statusText ++
      ". " ++ errorMessage) 502

/-- `textAnnotations[0].description || ''` guarded by the presence and
non-emptiness checks of lines 397-400. -/
def firstTokenText (vr : VisionSingle) : String :=
  match vr.textAnns with
  | some (a :: _) => a.description.getD ""
  | _ => ""

/-- Lines 393-400: prefer the full text annotation when requested and truthy,
else the first token annotation, else the empty string. -/
def chooseText (useFullText : Bool) (vr : VisionSingle) : String :=
  if useFullText && (vr.fullTextAnn.getD "") != "" then vr.fullTextAnn.getD ""
  else firstTokenText vr

/-- Lines 354-402: the body of one attempt of `extractTextFromImageBase64`,
as a function of the provider's observed response. -/
def processVisionResponse (useFullText : Bool) (r : ProviderResponse) :
    Except VError String :=
  match r with
  | .fetchFailed msg => .error (.jsError msg)
  | .notOk status statusText errorMessage =>
      .error (visionApiNotOkError status statusText errorMessage)
  | .okJson body =>
      match body.responses with
      | none => .error (.httpException "Invalid response from Google Vision API" 502)
      | some [] => .error (.httpException "Invalid response from Google Vision API" 502)
      | some (vr :: _) =>
          match vr.error with
          | some msg => .error (.httpException ("Google Vision API error: " ++ msg) 502)
          | none => .ok (jsTrim (chooseText useFullText vr))

/-- `ExtractTextOptions`: absent fields fall back to the service defaults
`maxRetries = 3`, `retryDelay = 1000`, `useFullTextAnnotation = true`. -/
structure ExtractTextOptions where
  maxRetries : Option Nat := none
  retryDelay : Option Nat := none
  useFullText : Option Bool := none
deriving DecidableEq, Repr

/-- The `Filter` entry of a PDF stream dictionary: a single name, an array of
names, or anything else (absent / other object). -/
inductive PdfFilterSpec where
  | noFilter
  | name (f : String)
  | array (fs : List String)
deriving DecidableEq, Repr

/-- A `PDFRawStream`: its dictionary's `Type` and `Subtype` names, its
`Filter` entry and its raw contents (`obj.getContents()`), as bytes. -/
structure PdfRawStream where
  typeName : Option String
  subtypeName : Option String
  filter : PdfFilterSpec
  contents : List Nat
deriving DecidableEq, Repr

/-- An indirect object of the PDF: a raw stream or anything else. -/
inductive PdfObj where
  | rawStream (s : PdfRawStream)
  | other
deriving DecidableEq, Repr

/-- A downloaded PDF buffer, seen through its two library views: the
pdf-parse text layer (`pdfData.text`, or a thrown error) and the pdf-lib
indirect-object enumeration (or a thrown load error). -/
structure PdfBuffer where
  parseText : Except VError String
  loadObjects : Except String (List PdfObj)
deriving Repr

/-- The determinized external world of the service: configuration flag,
provider responses keyed by payload and attempt index, image download (URL to
base64, done once per call, outside the retry loop), pdf-parse availability,
PDF download keyed by URL and attempt index, and zlib inflation. -/
structure VisionEnv where
  configured : Bool
  provider : String → Nat → ProviderResponse
  downloadB64 : String → Except VError String
  pdfParseOk : Bool
  pdfDownload : String → Nat → Except VError PdfBuffer
  inflate : List Nat → Except String (List Nat)

/-- The base64 alphabet. -/
def base64Chars : List Char :=
  ['A','B','C','D','E','F','G','H','I','J','K','L','M','N','O','P','Q','R',
   'S','T','U','V','W','X','Y','Z','a','b','c','d','e','f','g','h','i','j',
   'k','l','m','n','o','p','q','r','s','t','u','v','w','x','y','z','0','1',
   '2','3','4','5','6','7','8','9','+','/']

/-- Character of the base64 alphabet at a sextet value. -/
def base64CharAt (i : Nat) : Char := base64Chars.getD i 'A'

/-- Standard base64 of a byte list, three bytes a chunk, padded with `=`. -/
def encodeBase64Core : List Nat → List Char
  | b0 :: b1 :: b2 :: rest =>
      base64CharAt (b0 / 4) ::
      base64CharAt (b0 % 4 * 16 + b1 / 16) ::
      base64CharAt (b1 % 16 * 4 + b2 / 64) ::
      base64CharAt (b2 % 64) ::
      encodeBase64Core rest
  | [b0, b1] =>
      [base64CharAt (b0 / 4), base64CharAt (b0 % 4 * 16 + b1 / 16),
       base64CharAt (b1 % 16 * 4), '=']
  | [b0] =>
      [base64CharAt (b0 / 4), base64CharAt (b0 % 4 * 16), '=', '=']
  | [] => []

/-- `Buffer.from(data).toString('base64')`. -/
def encodeBase64 (bytes : List Nat) : String := String.mk (encodeBase64Core bytes)

/-- `f === PDFName.of('DCTDecode') || f === PDFName.of('JPXDecode')`. -/
def isJpegFilterName (f : String) : Bool := f == "DCTDecode" || f == "JPXDecode"

/-- Lines 124-158: compute `(isJpeg, needsInflate)` from the `Filter`
entry.  A single name is JPEG-family iff it is DCT or JPX; an array is
JPEG-family iff some element is, and needs inflation iff it also names
FlateDecode; anything else is not JPEG-family. -/
def classifyFilter : PdfFilterSpec → Bool × Bool
  | .name f => (isJpegFilterName f, false)
  | .array fs =>
      let hasJpeg := fs.any isJpegFilterName
      let hasFlate := fs.any (fun f => f == "FlateDecode")
      if hasJpeg then (true, hasFlate) else (false, false)
  | .noFilter => (false, false)

/-- Lines 111-181: one indirect object's contribution to the recovered image
list.  Non-streams and non-Image-XObjects yield nothing; a JPEG-family image
yields its contents, inflated first when the chain also names FlateDecode —
and on an inflation error the ORIGINAL contents are kept (lines 169-172:
"Continue with original data"), not skipped. -/
def processPdfObj (inflate : List Nat → Except String (List Nat)) :
    PdfObj → Option String
  | .other => none
  | .rawStream s =>
      if s.typeName == some "XObject" && s.subtypeName == some "Image" then
        let c := classifyFilter s.filter
        if c.1 then
          let data :=
            if c.2 then
              match inflate s.contents with
              | .ok inflated => inflated
              | .error _ => s.contents
            else s.contents
          some (encodeBase64 data)
        else none
      else none

/-- `extractImagesFromPdf` (lines 98-195): enumerate indirect objects and
collect base64 JPEG-family candidates; any load/enumeration failure is caught
and degrades to the empty list (lines 191-194). -/
def extractImagesFromPdf (inflate : List Nat → Except String (List Nat))
    (pdfBuffer : PdfBuffer) : List String :=
  match pdfBuffer.loadObjects with
  | .error _ => []
  | .ok objs => objs.filterMap (processPdfObj inflate)

/-- The shared retry loop of both single-extraction paths (`for attempt = 0
.. maxRetries`): run the attempt body; on success stop; on a terminal error
rethrow; otherwise remember the error and loop; when the budget is exhausted
throw the synthesized failure.  The second component counts the attempts
actually made. -/
def retryLoop (isTerminal : VError → Bool) (exhausted : Option VError → VError)
    (op : Nat → Except VError String) :
    Nat → Nat → Option VError → Except VError String × Nat
  | 0, _, lastError => (.error (exhausted lastError), 0)
  | fuel + 1, attempt, _ =>
      match op attempt with
      | .ok text => (.ok text, 1)
      | .error e =>
          if isTerminal e then (.error e, 1)
          else
            let rest := retryLoop isTerminal exhausted op fuel (attempt + 1) (some e)
            (rest.1, rest.2 + 1)

/-- `extractTextFromImageBase64` (lines 315-422), instrumented with the
attempt count.  The configuration check precedes the loop (503, no
attempt made). -/
def extractTextFromImageBase64Run (env : VisionEnv) (imageBase64 : String)
    (opts : ExtractTextOptions) : Except VError String × Nat :=
  if env.configured then
    let maxRetries := opts.maxRetries.getD 3
    let useFullText := opts.useFullText.getD true
    retryLoop isImageTerminal (imageExhausted maxRetries)
      (fun attempt => processVisionResponse useFullText (env.provider imageBase64 attempt))
      (maxRetries + 1) 0 none
  else (.error (.httpException "Google Vision API is not configured" 503), 0)

/-- `extractTextFromImageBase64`, result only. -/
def extractTextFromImageBase64 (env : VisionEnv) (imageBase64 : String)
    (opts : ExtractTextOptions) : Except VError String :=
  (extractTextFromImageBase64Run env imageBase64 opts).1

/-- `extractTextFromImage` (lines 430-436): download once (not retried),
then the base64 path. -/
def extractTextFromImage (env : VisionEnv) (imageUrl : String)
    (opts : ExtractTextOptions) : Except VError String :=
  match env.downloadB64 imageUrl with
  | .error e => .error e
  | .ok imageBase64 => extractTextFromImageBase64 env imageBase64 opts

/-- The 503 thrown when pdf-parse cannot be loaded (lines 244-247). -/
def pdfUnavailableMsg : String :=
  "PDF extraction is not available. Please install pdf-parse: pnpm add pdf-parse@1.1.1"

/-- Lines 267-275: the OCR fallback computation of the PDF path.  Recover
candidates; when there are any, OCR them all (`Promise.all`: one rejection
rejects the whole step), drop results with empty trim, join with a blank
line, and prefer the joined text only when strictly longer. -/
def pdfOcrFallback (env : VisionEnv) (pdfBuffer : PdfBuffer)
    (opts : ExtractTextOptions) (extractedText : String) : Except VError String :=
  let imagesBase64 := extractImagesFromPdf env.inflate pdfBuffer
  if imagesBase64.length > 0 then
    match imagesBase64.mapM (fun base64 => extractTextFromImageBase64 env base64 opts) with
    | .error e => .error e
    | .ok ocrResults =>
        let ocrText := String.intercalate "\n\n"
          (ocrResults.filter (fun t => (jsTrim t).length > 0))
        if ocrText.length > extractedText.length then .ok ocrText
        else .ok extractedText
  else .ok extractedText

/-- Lines 227-284: the body of one attempt of `extractTextFromPdf`: load
pdf-parse (503 when unavailable), download, extract and trim the text layer;
below 50 characters try the OCR fallback, catching any of its errors and
keeping the original text. -/
def pdfAttemptBody (env : VisionEnv) (pdfUrl : String)
    (opts : ExtractTextOptions) (attempt : Nat) : Except VError String :=
  if env.pdfParseOk then
    match env.pdfDownload pdfUrl attempt with
    | .error e => .error e
    | .ok pdfBuffer =>
        match pdfBuffer.parseText with
        | .error e => .error e
        | .ok rawText =>
            let extractedText := jsTrim rawText
            if extractedText.length < 50 then
              match pdfOcrFallback env pdfBuffer opts extractedText with
              | .ok t => .ok t
              | .error _ => .ok extractedText
            else .ok extractedText
  else .error (.httpException pdfUnavailableMsg 503)

/-- `extractTextFromPdf` (lines 214-304), instrumented with attempt count. -/
def extractTextFromPdfRun (env : VisionEnv) (pdfUrl : String)
    (opts : ExtractTextOptions) : Except VError String × Nat :=
  let maxRetries := opts.maxRetries.getD 3
  retryLoop isPdfTerminal (pdfExhausted maxRetries)
    (pdfAttemptBody env pdfUrl opts) (maxRetries + 1) 0 none

/-- `extractTextFromPdf`, result only. -/
def extractTextFromPdf (env : VisionEnv) (pdfUrl : String)
    (opts : ExtractTextOptions) : Except VError String :=
  (extractTextFromPdfRun env pdfUrl opts).1

/-- Lines 527-528 and 549-550: PDF classification of a reference — the
lowercased trailing `.`-segment equals `pdf`, or `.pdf` occurs anywhere in
the lowercased reference. -/
def isPdfUrl (url : String) : Bool :=
  let extension := jsToLower (String.mk ((splitOnChar '.' url.data).getLastD []))
  extension == "pdf" || containsSeq ".pdf".data (jsToLower url).data

/-- The per-item error boundary of `extractTextFromImages` (lines 453-461):
a failed extraction becomes the empty string. -/
def imageItemResult (env : VisionEnv) (opts : ExtractTextOptions)
    (url : String) : String :=
  match extractTextFromImage env url opts with
  | .ok text => text
  | .error _ => ""

/-- The per-item error boundary of `extractTextFromPdfs` (lines 495-502). -/
def pdfItemResult (env : VisionEnv) (opts : ExtractTextOptions)
    (url : String) : String :=
  match extractTextFromPdf env url opts with
  | .ok text => text
  | .error _ => ""

/-- `extractTextFromImages` (lines 444-464). -/
def extractTextFromImages (env : VisionEnv) (imageUrls : List String)
    (opts : ExtractTextOptions) : List String :=
  if imageUrls.isEmpty then []
  else imageUrls.map (imageItemResult env opts)

/-- `extractTextFromImagesFiltered` (lines 472-478). -/
def extractTextFromImagesFiltered (env : VisionEnv) (imageUrls : List String)
    (opts : ExtractTextOptions) : List String :=
  (extractTextFromImages env imageUrls opts).filter
    (fun text => (jsTrim text).length > 0)

/-- `extractTextFromPdfs` (lines 486-506). -/
def extractTextFromPdfs (env : VisionEnv) (pdfUrls : List String)
    (opts : ExtractTextOptions) : List String :=
  if pdfUrls.isEmpty then []
  else pdfUrls.map (pdfItemResult env opts)

/-- Lines 544-557: walk the original reference list, pulling the next
unconsumed result from the matching class queue (`results[i++] || ''`:
missing entries become the empty string). -/
def reassemble : List String → List String → List String → List String
  | [], _, _ => []
  | url :: rest, imageResults, pdfResults =>
      if isPdfUrl url then
        pdfResults.headD "" :: reassemble rest imageResults pdfResults.tail
      else
        imageResults.headD "" :: reassemble rest imageResults.tail pdfResults

/-- `extractTextFromFiles` (lines 514-560): split by class, run both
sub-pipelines, reassemble in original order. -/
def extractTextFromFiles (env : VisionEnv) (fileUrls : List String)
    (opts : ExtractTextOptions) : List String :=
  if fileUrls.isEmpty then []
  else
    let imageUrls := fileUrls.filter (fun url => !isPdfUrl url)
    let pdfUrls := fileUrls.filter (fun url => isPdfUrl url)
    let imageResults :=
      if imageUrls.length > 0 then extractTextFromImages env imageUrls opts else []
    let pdfResults :=
      if pdfUrls.length > 0 then extractTextFromPdfs env pdfUrls opts else []
    reassemble fileUrls imageResults pdfResults

/-- `extractTextFromFilesFiltered` (lines 568-574). -/
def extractTextFromFilesFiltered (env : VisionEnv) (fileUrls : List String)
    (opts : ExtractTextOptions) : List String :=
  (extractTextFromFiles env fileUrls opts).filter
    (fun text => (jsTrim text).length > 0)

/-- The per-position result of `extractTextFromFiles`: the matching
sub-pipeline's extraction with its empty-string error boundary. -/
def fileItemResult (env : VisionEnv) (opts : ExtractTextOptions)
    (url : String) : String :=
  if isPdfUrl url then pdfItemResult env opts url else imageItemResult env opts url

/-! Concrete environments used by the witnesses and counterexamples -/

/-- A provider body holding one response whose full text annotation is the
given text. -/
def singleTextBody (text : String) : VisionBody :=
  { responses := some [{ error := none, fullTextAnn := some text, textAnns := none }] }

/-- A configured environment: image downloads succeed except `bad.jpg`
(404), OCR of the payloads `ok.jpg` and `ok2.jpg` yields `text1` and
`text2`, PDFs parse to a 55-character text layer. -/
def sampleEnv : VisionEnv :=
  { configured := true
  , provider := fun payload _ =>
      if payload == "ok.jpg" then .okJson (singleTextBody "text1")
      else if payload == "ok2.jpg" then .okJson (singleTextBody "text2")
      else .okJson (singleTextBody "sample")
  , downloadB64 := fun url =>
      if url == "bad.jpg" then
        .error (.httpException "Failed to download file: Not Found" 400)
      else .ok url
  , pdfParseOk := true
  , pdfDownload := fun _ _ =>
      .ok { parseText := .ok "0123456789012345678901234567890123456789012345678901234"
          , loadObjects := .ok [] }
  , inflate := fun bytes => .ok bytes }

/-- An environment whose provider always answers 500 and whose PDF download
always fails with a non-HttpException error: every attempt of either path
fails with a transient-class error. -/
def envC5 : VisionEnv :=
  { configured := true
  , provider := fun _ _ => .notOk 500 "Internal Server Error" ""
  , downloadB64 := fun url => .ok url
  , pdfParseOk := true
  , pdfDownload := fun _ _ => .error (.jsError "network failure")
  , inflate := fun bytes => .ok bytes }

/-- An environment whose pdf-parse capability is missing. -/
def envC6 : VisionEnv :=
  { configured := true
  , provider := fun _ _ => .okJson (singleTextBody "sample")
  , downloadB64 := fun url => .ok url
  , pdfParseOk := false
  , pdfDownload := fun _ _ => .error (.jsError "unreachable")
  , inflate := fun bytes => .ok bytes }

/-- An environment whose provider always answers 404 Not Found. -/
def envC2 : VisionEnv :=
  { configured := true
  , provider := fun _ _ => .notOk 404 "Not Found" ""
  , downloadB64 := fun url => .ok url
  , pdfParseOk := true
  , pdfDownload := fun _ _ => .ok { parseText := .ok "", loadObjects := .ok [] }
  , inflate := fun bytes => .ok bytes }

/-- A 49-character text layer. -/
def text49 : String := String.mk (List.replicate 49 'a')

/-- A 50-character text layer. -/
def text50 : String := String.mk (List.replicate 50 'a')

/-- A 60-character OCR result. -/
def ocr60 : String := String.mk (List.replicate 60 'b')

/-- A PDF buffer whose text layer is 49 characters and which holds one
JPEG candidate. -/
def buf49 : PdfBuffer :=
  { parseText := .ok text49
  , loadObjects := .ok [.rawStream
      { typeName := some "XObject", subtypeName := some "Image"
      , filter := .name "DCTDecode", contents := [1, 2, 3] }] }

/-- Like `buf49` with a 50-character text layer. -/
def buf50 : PdfBuffer :=
  { parseText := .ok text50
  , loadObjects := buf49.loadObjects }

/-- Environment around `buf49`: OCR of the candidate yields 60 characters. -/
def env49 : VisionEnv :=
  { configured := true
  , provider := fun _ _ => .okJson (singleTextBody ocr60)
  , downloadB64 := fun url => .ok url
  , pdfParseOk := true
  , pdfDownload := fun _ _ => .ok buf49
  , inflate := fun bytes => .ok bytes }

/-- Environment around `buf50`. -/
def env50 : VisionEnv :=
  { configured := true
  , provider := fun _ _ => .okJson (singleTextBody ocr60)
  , downloadB64 := fun url => .ok url
  , pdfParseOk := true
  , pdfDownload := fun _ _ => .ok buf50
  , inflate := fun bytes => .ok bytes }

/-- A PDF buffer whose text layer is the 5-character `short` and which
holds one JPEG candidate. -/
def bufShort : PdfBuffer :=
  { parseText := .ok "short"
  , loadObjects := .ok [.rawStream
      { typeName := some "XObject", subtypeName := some "Image"
      , filter := .name "DCTDecode", contents := [1, 2, 3] }] }

/-- Environment around `bufShort` whose OCR yields the 8-character
`longerOK`. -/
def envLonger : VisionEnv :=
  { configured := true
  , provider := fun _ _ => .okJson (singleTextBody "longerOK")
  , downloadB64 := fun url => .ok url
  , pdfParseOk := true
  , pdfDownload := fun _ _ => .ok bufShort
  , inflate := fun bytes => .ok bytes }

/-- Environment around `bufShort` whose OCR yields the 3-character `hi!`. -/
def envHi : VisionEnv :=
  { configured := true
  , provider := fun _ _ => .okJson (singleTextBody "hi!")
  , downloadB64 := fun url => .ok url
  , pdfParseOk := true
  , pdfDownload := fun _ _ => .ok bufShort
  , inflate := fun bytes => .ok bytes }

/-- Environment around `bufShort` whose OCR always fails (provider answers
500 every attempt), so the fallback errors after exhausting its retries. -/
def envC8 : VisionEnv :=
  { configured := true
  , provider := fun _ _ => .notOk 500 "Internal Server Error" ""
  , downloadB64 := fun url => .ok url
  , pdfParseOk := true
  , pdfDownload := fun _ _ => .ok bufShort
  , inflate := fun bytes => .ok bytes }

/-- The JPEG-family raw stream used by the C9 analysis: a
FlateDecode-wrapped DCTDecode image. -/
def sC9 : PdfRawStream :=
  { typeName := some "XObject", subtypeName := some "Image"
  , filter := .array ["FlateDecode", "DCTDecode"], contents := [1, 2, 3] }

/-- A PDF buffer holding only that stream. -/
def bufC9 : PdfBuffer :=
  { parseText := .ok "", loadObjects := .ok [.rawStream sC9] }

/-- A PDF buffer whose object enumeration fails. -/
def bufC9bad : PdfBuffer :=
  { parseText := .ok "", loadObjects := .error "Failed to parse PDF document" }

/-! Helper lemmas -/

theorem extractTextFromImages_eq_map (env : VisionEnv) (opts : ExtractTextOptions) :
    ∀ urls : List String,
      extractTextFromImages env urls opts = urls.map (imageItemResult env opts)
  | [] => rfl
  | _ :: _ => rfl

theorem extractTextFromPdfs_eq_map (env : VisionEnv) (opts : ExtractTextOptions) :
    ∀ urls : List String,
      extractTextFromPdfs env urls opts = urls.map (pdfItemResult env opts)
  | [] => rfl
  | _ :: _ => rfl

theorem reassemble_filter_map (f g : String → String) :
    ∀ urls : List String,
      reassemble urls ((urls.filter (fun u => !isPdfUrl u)).map f)
          ((urls.filter (fun u => isPdfUrl u)).map g)
        = urls.map (fun u => if isPdfUrl u then g u else f u) := by
  intro urls
  induction urls with
  | nil => rfl
  | cons u rest ih =>
    by_cases h : isPdfUrl u
    · simp only [List.filter_cons, h, Bool.not_true, if_pos, if_neg, List.map_cons,
        reassemble, List.map, List.headD, List.tail, Bool.false_eq_true, ite_false,
        ite_true]
      exact congrArg _ ih
    · simp only [List.filter_cons, h, Bool.not_false, List.map_cons, reassemble,
        List.headD, List.tail, Bool.false_eq_true, ite_false, ite_true]
      exact congrArg _ ih

theorem extractTextFromFiles_eq_map (env : VisionEnv) (opts : ExtractTextOptions)
    (urls : List String) :
    extractTextFromFiles env urls opts = urls.map (fileItemResult env opts) := by
  cases urls with
  | nil => rfl
  | cons u rest =>
    show (let imageUrls := (u :: rest).filter (fun url => !isPdfUrl url)
          let pdfUrls := (u :: rest).filter (fun url => isPdfUrl url)
          let imageResults :=
            if imageUrls.length > 0 then extractTextFromImages env imageUrls opts else []
          let pdfResults :=
            if pdfUrls.length > 0 then extractTextFromPdfs env pdfUrls opts else []
          reassemble (u :: rest) imageResults pdfResults)
        = (u :: rest).map (fileItemResult env opts)
    have himg : (if ((u :: rest).filter (fun url => !isPdfUrl url)).length > 0 then
          extractTextFromImages env ((u :: rest).filter (fun url => !isPdfUrl url)) opts
        else [])
        = ((u :: rest).filter (fun url => !isPdfUrl url)).map (imageItemResult env opts) := by
      by_cases h : ((u :: rest).filter (fun url => !isPdfUrl url)).length > 0
      · rw [if_pos h, extractTextFromImages_eq_map]
      · rw [if_neg h]
        have : ((u :: rest).filter (fun url => !isPdfUrl url)) = [] :=
          List.length_eq_zero.mp (Nat.eq_zero_of_not_pos h)
        rw [this]; rfl
    have hpdf : (if ((u :: rest).filter (fun url => isPdfUrl url)).length > 0 then
          extractTextFromPdfs env ((u :: rest).filter (fun url => isPdfUrl url)) opts
        else [])
        = ((u :: rest).filter (fun url => isPdfUrl url)).map (pdfItemResult env opts) := by
      by_cases h : ((u :: rest).filter (fun url => isPdfUrl url)).length > 0
      · rw [if_pos h, extractTextFromPdfs_eq_map]
      · rw [if_neg h]
        have : ((u :: rest).filter (fun url => isPdfUrl url)) = [] :=
          List.length_eq_zero.mp (Nat.eq_zero_of_not_pos h)
        rw [this]; rfl
    simp only
    rw [himg, hpdf, reassemble_filter_map]
    rfl

theorem retryLoop_of_ok (isTerminal : VError → Bool) (exhausted : Option VError → VError)
    (op : Nat → Except VError String) (fuel attempt : Nat) (lastError : Option VError)
    (t : String) (h : op attempt = .ok t) :
    retryLoop isTerminal exhausted op (fuel + 1) attempt lastError = (.ok t, 1) := by
  simp [retryLoop, h]

theorem retryLoop_of_terminal (isTerminal : VError → Bool)
    (exhausted : Option VError → VError) (op : Nat → Except VError String)
    (fuel attempt : Nat) (lastError : Option VError) (e : VError)
    (h : op attempt = .error e) (ht : isTerminal e = true) :
    retryLoop isTerminal exhausted op (fuel + 1) attempt lastError = (.error e, 1) := by
  simp [retryLoop, h, ht]

theorem retryLoop_of_transient (isTerminal : VError → Bool)
    (exhausted : Option VError → VError) (op : Nat → Except VError String)
    (fuel attempt : Nat) (lastError : Option VError) (e : VError)
    (h : op attempt = .error e) (ht : isTerminal e = false) :
    retryLoop isTerminal exhausted op (fuel + 1) attempt lastError
      = ((retryLoop isTerminal exhausted op fuel (attempt + 1) (some e)).1,
         (retryLoop isTerminal exhausted op fuel (attempt + 1) (some e)).2 + 1) := by
  simp [retryLoop, h, ht]

theorem retryLoop_transient_exhausts (isTerminal : VError → Bool)
    (exhausted : Option VError → VError) (op : Nat → Except VError String)
    (errOf : Nat → VError) (hop : ∀ n, op n = .error (errOf n))
    (htr : ∀ n, isTerminal (errOf n) = false) :
    ∀ fuel attempt lastError,
      retryLoop isTerminal exhausted op (fuel + 1) attempt lastError
        = (.error (exhausted (some (errOf (attempt + fuel)))), fuel + 1) := by
  intro fuel
  induction fuel with
  | zero =>
    intro attempt lastError
    simp [retryLoop, hop attempt, htr attempt]
  | succ k ih =>
    intro attempt lastError
    rw [retryLoop_of_transient _ _ _ _ _ _ _ (hop attempt) (htr attempt),
      ih (attempt + 1) (some (errOf attempt))]
    have harith : attempt + 1 + k = attempt + (k + 1) := by omega
    rw [harith]

theorem extractTextFromPdf_of_body_ok (env : VisionEnv) (pdfUrl : String)
    (opts : ExtractTextOptions) (t : String)
    (h : pdfAttemptBody env pdfUrl opts 0 = .ok t) :
    extractTextFromPdf env pdfUrl opts = .ok t := by
  unfold extractTextFromPdf extractTextFromPdfRun
  rw [retryLoop_of_ok _ _ _ _ _ _ _ h]

theorem map_getD_of_lt (f : String → String) (l : List String) (i : Nat)
    (hi : i < l.length) : (l.map f).getD i "" = f (l.getD i "") := by
  rw [List.getD_eq_getElem?_getD, List.getD_eq_getElem?_getD, List.getElem?_map,
    List.getElem?_eq_getElem hi]
  rfl

/-! C1, C7, C10 -/

/-- C1: for every list of N file references and any options,
`extractTextFromFiles` returns exactly N strings, and the string at position
i is the matching sub-pipeline's extraction result (or the empty-string
failure substitute) for the reference at position i, for every interleaving
of the PDF class and the image class. -/
theorem extractTextFromFiles_order_preserving (env : VisionEnv)
    (opts : ExtractTextOptions) (fileUrls : List String) :
    (extractTextFromFiles env fileUrls opts).length = fileUrls.length ∧
    extractTextFromFiles env fileUrls opts = fileUrls.map (fileItemResult env opts) ∧
    (∀ i, i < fileUrls.length →
      (extractTextFromFiles env fileUrls opts).getD i "" =
        (if isPdfUrl (fileUrls.getD i "") then
          pdfItemResult env opts (fileUrls.getD i "")
         else imageItemResult env opts (fileUrls.getD i ""))) := by
  have hmap := extractTextFromFiles_eq_map env opts fileUrls
  refine ⟨by rw [hmap, List.length_map], hmap, ?_⟩
  intro i hi
  rw [hmap, map_getD_of_lt _ _ _ hi]
  unfold fileItemResult
  rfl

theorem extractTextFromFiles_order_preserving_witness :
    1 < (["a.jpg", "b.pdf", "c.png"] : List String).length ∧
    (extractTextFromFiles sampleEnv ["a.jpg", "b.pdf", "c.png"] {}).getD 1 "" =
      (if isPdfUrl ((["a.jpg", "b.pdf", "c.png"] : List String).getD 1 "") then
        pdfItemResult sampleEnv {} ((["a.jpg", "b.pdf", "c.png"] : List String).getD 1 "")
       else imageItemResult sampleEnv {} ((["a.jpg", "b.pdf", "c.png"] : List String).getD 1 "")) :=
  ⟨by decide,
   (extractTextFromFiles_order_preserving sampleEnv {} ["a.jpg", "b.pdf", "c.png"]).2.2
     1 (by decide)⟩

/-- C7: batch calls never propagate an error: for every input list and
options the output has the input's length, a failing item's position holds
the empty string, and a succeeding item's position holds its own result,
unaffected by other items. -/
theorem batch_failure_isolation (env : VisionEnv) (opts : ExtractTextOptions)
    (urls : List String) :
    (extractTextFromImages env urls opts).length = urls.length ∧
    (extractTextFromPdfs env urls opts).length = urls.length ∧
    (extractTextFromFiles env urls opts).length = urls.length ∧
    (∀ i, i < urls.length →
      (∀ e, extractTextFromImage env (urls.getD i "") opts = .error e →
        (extractTextFromImages env urls opts).getD i "" = "") ∧
      (∀ t, extractTextFromImage env (urls.getD i "") opts = .ok t →
        (extractTextFromImages env urls opts).getD i "" = t) ∧
      (∀ e, extractTextFromPdf env (urls.getD i "") opts = .error e →
        (extractTextFromPdfs env urls opts).getD i "" = "") ∧
      (∀ t, extractTextFromPdf env (urls.getD i "") opts = .ok t →
        (extractTextFromPdfs env urls opts).getD i "" = t)) := by
  have himg := extractTextFromImages_eq_map env opts urls
  have hpdf := extractTextFromPdfs_eq_map env opts urls
  have hfiles := (extractTextFromFiles_order_preserving env opts urls).1
  refine ⟨by rw [himg, List.length_map], by rw [hpdf, List.length_map], hfiles, ?_⟩
  intro i hi
  rw [himg, hpdf, map_getD_of_lt _ _ _ hi, map_getD_of_lt _ _ _ hi]
  refine ⟨?_, ?_, ?_, ?_⟩
  · intro e he; simp only [imageItemResult]; rw [he]
  · intro t ht; simp only [imageItemResult]; rw [ht]
  · intro e he; simp only [pdfItemResult]; rw [he]
  · intro t ht; simp only [pdfItemResult]; rw [ht]

theorem batch_failure_isolation_witness :
    1 < (["ok.jpg", "bad.jpg", "ok2.jpg"] : List String).length ∧
    (extractTextFromImages sampleEnv ["ok.jpg", "bad.jpg", "ok2.jpg"] {}).getD 1 "" = "" :=
  ⟨by decide,
   ((batch_failure_isolation sampleEnv {} ["ok.jpg", "bad.jpg", "ok2.jpg"]).2.2.2
       1 (by decide)).1
     (.httpException "Failed to download file: Not Found" 400) rfl⟩

/-- C10: the filtered batch variants return exactly the entries of the
unfiltered call whose trimmed length is positive, in the same relative
order (a sublist), so whitespace-only entries are removed along with empty
strings. -/
theorem filtered_variants_relation (env : VisionEnv) (opts : ExtractTextOptions)
    (urls : List String) :
    extractTextFromFilesFiltered env urls opts =
      (extractTextFromFiles env urls opts).filter (fun t => (jsTrim t).length > 0) ∧
    extractTextFromImagesFiltered env urls opts =
      (extractTextFromImages env urls opts).filter (fun t => (jsTrim t).length > 0) ∧
    (∀ s, s ∈ extractTextFromFilesFiltered env urls opts → (jsTrim s).length > 0) ∧
    (extractTextFromFilesFiltered env urls opts).Sublist
      (extractTextFromFiles env urls opts) ∧
    (∀ s, s ∈ extractTextFromImagesFiltered env urls opts → (jsTrim s).length > 0) ∧
    (extractTextFromImagesFiltered env urls opts).Sublist
      (extractTextFromImages env urls opts) := by
  refine ⟨rfl, rfl, ?_, List.filter_sublist _, ?_, List.filter_sublist _⟩
  · intro s hs
    rw [extractTextFromFilesFiltered, List.mem_filter] at hs
    exact of_decide_eq_true hs.2
  · intro s hs
    rw [extractTextFromImagesFiltered, List.mem_filter] at hs
    exact of_decide_eq_true hs.2

theorem filtered_variants_relation_witness :
    "text1" ∈ extractTextFromImagesFiltered sampleEnv ["ok.jpg"] {} ∧
    (jsTrim "text1").length > 0 := by
  have hmem : "text1" ∈ extractTextFromImagesFiltered sampleEnv ["ok.jpg"] {} := by
    decide
  exact ⟨hmem,
    (filtered_variants_relation sampleEnv {} ["ok.jpg"]).2.2.2.2.1 "text1" hmem⟩

/-! C5, C6 -/

/-- C5: with maxRetries = m, a single extraction whose every attempt fails
with a transient-class error is attempted exactly m+1 times (attempts
0..m), then fails with the synthesized failure wrapping the last observed
error and reporting m+1 attempts — on the image path and on the PDF path. -/
theorem retry_exhaustion_bound (env : VisionEnv) (imageBase64 pdfUrl : String)
    (opts : ExtractTextOptions) (errI errP : Nat → VError)
    (hconf : env.configured = true)
    (hopI : ∀ n, processVisionResponse (opts.useFullText.getD true)
        (env.provider imageBase64 n) = .error (errI n))
    (htrI : ∀ n, isImageTerminal (errI n) = false)
    (hopP : ∀ n, pdfAttemptBody env pdfUrl opts n = .error (errP n))
    (htrP : ∀ n, isPdfTerminal (errP n) = false) :
    extractTextFromImageBase64Run env imageBase64 opts
      = (.error (imageExhausted (opts.maxRetries.getD 3)
          (some (errI (opts.maxRetries.getD 3)))), opts.maxRetries.getD 3 + 1) ∧
    extractTextFromPdfRun env pdfUrl opts
      = (.error (pdfExhausted (opts.maxRetries.getD 3)
          (some (errP (opts.maxRetries.getD 3)))), opts.maxRetries.getD 3 + 1) := by
  constructor
  · unfold extractTextFromImageBase64Run
    simp only [hconf, if_true]
    rw [retryLoop_transient_exhausts _ _ _ errI hopI htrI (opts.maxRetries.getD 3) 0 none,
      Nat.zero_add]
  · unfold extractTextFromPdfRun
    rw [retryLoop_transient_exhausts _ _ _ errP hopP htrP (opts.maxRetries.getD 3) 0 none,
      Nat.zero_add]

theorem retry_exhaustion_bound_witness :
    extractTextFromImageBase64Run envC5 "img" { maxRetries := some 2 }
      = (.error (imageExhausted 2
          (some (visionApiNotOkError 500 "Internal Server Error" ""))), 3) ∧
    extractTextFromPdfRun envC5 "doc.pdf" { maxRetries := some 2 }
      = (.error (pdfExhausted 2 (some (.jsError "network failure"))), 3) :=
  retry_exhaustion_bound envC5 "img" "doc.pdf" { maxRetries := some 2 }
    (fun _ => visionApiNotOkError 500 "Internal Server Error" "")
    (fun _ => .jsError "network failure")
    rfl (fun _ => rfl) (fun _ => rfl) (fun _ => rfl) (fun _ => rfl)

/-- C6: an operation failing with a terminal-class error on attempt 0 is
attempted exactly once — the error is surfaced with no further attempts even
when maxRetries > 0: for the shared retry loop under any terminal
classification, for the PDF path under its status < 500 or = 503 rule, and
in particular for the missing pdf-parse capability (Configuration, 503). -/
theorem terminal_short_circuit (isTerminal : VError → Bool)
    (exhausted : Option VError → VError) (op : Nat → Except VError String)
    (env : VisionEnv) (pdfUrl : String) (opts : ExtractTextOptions)
    (maxRetries : Nat) (e e2 : VError) :
    (op 0 = .error e → isTerminal e = true →
      retryLoop isTerminal exhausted op (maxRetries + 1) 0 none = (.error e, 1)) ∧
    (pdfAttemptBody env pdfUrl opts 0 = .error e2 → isPdfTerminal e2 = true →
      extractTextFromPdfRun env pdfUrl opts = (.error e2, 1)) ∧
    (env.pdfParseOk = false →
      extractTextFromPdfRun env pdfUrl opts
        = (.error (.httpException pdfUnavailableMsg 503), 1)) ∧
    (∀ msg st, isImageTerminal (.httpException msg st) = decide (st < 500)) ∧
    (∀ msg st, isPdfTerminal (.httpException msg st)
      = (decide (st < 500) || st == 503)) := by
  refine ⟨?_, ?_, ?_, fun _ _ => rfl, fun _ _ => rfl⟩
  · intro h ht
    exact retryLoop_of_terminal _ _ _ _ _ _ _ h ht
  · intro h ht
    unfold extractTextFromPdfRun
    exact retryLoop_of_terminal _ _ _ _ _ _ _ h ht
  · intro hno
    unfold extractTextFromPdfRun
    apply retryLoop_of_terminal
    · simp [pdfAttemptBody, hno]
    · rfl

theorem terminal_short_circuit_witness :
    (fun _ => Except.error (.httpException "Failed to download file: Not Found" 400) :
        Nat → Except VError String) 0
      = .error (.httpException "Failed to download file: Not Found" 400) ∧
    envC6.pdfParseOk = false ∧
    retryLoop isImageTerminal (imageExhausted 5)
        (fun _ => .error (.httpException "Failed to download file: Not Found" 400))
        (5 + 1) 0 none
      = (.error (.httpException "Failed to download file: Not Found" 400), 1) ∧
    extractTextFromPdfRun envC6 "doc.pdf" { maxRetries := some 4 }
      = (.error (.httpException pdfUnavailableMsg 503), 1) :=
  ⟨rfl, rfl,
   (terminal_short_circuit isImageTerminal (imageExhausted 5)
       (fun _ => .error (.httpException "Failed to download file: Not Found" 400))
       envC6 "doc.pdf" { maxRetries := some 4 } 5
       (.httpException "Failed to download file: Not Found" 400)
       (.jsError "unused")).1 rfl rfl,
   (terminal_short_circuit isImageTerminal (imageExhausted 5)
       (fun _ => .error (.httpException "Failed to download file: Not Found" 400))
       envC6 "doc.pdf" { maxRetries := some 4 } 5
       (.httpException "Failed to download file: Not Found" 400)
       (.jsError "unused")).2.2.1 rfl⟩

/-! C2 -/

/-- C2 counterexample: a provider response with numeric status 404 (< 500)
is NOT treated as terminal: with maxRetries = 2 the image extraction makes
3 attempts and fails with the synthesized exhaustion error, not with the
first attempt's wrapped provider error — because every non-ok provider
response is wrapped in an HttpException with status 502. -/
theorem provider_client_error_retried_cex :
    404 < 500 ∧
    (extractTextFromImageBase64Run envC2 "img" { maxRetries := some 2 }).2 = 3 ∧
    (extractTextFromImageBase64Run envC2 "img" { maxRetries := some 2 }).1
      = .error (imageExhausted 2 (some (visionApiNotOkError 404 "Not Found" ""))) :=
  ⟨by decide, rfl, rfl⟩

/-- C2 amended: a non-ok OCR provider response is wrapped in an
HttpException with status 502 (Bad Gateway) regardless of the provider's
numeric status, so it is never classified terminal: the call retries it
subject to the retry budget, whatever the provider statuses are. -/
theorem provider_notOk_always_transient (useFullText : Bool) (status : Nat)
    (statusText errorMessage : String) (env : VisionEnv) (imageBase64 : String)
    (opts : ExtractTextOptions) (statusOf : Nat → Nat) (stOf emOf : Nat → String) :
    processVisionResponse useFullText (.notOk status statusText errorMessage)
      = .error (visionApiNotOkError status statusText errorMessage) ∧
    isImageTerminal (visionApiNotOkError status statusText errorMessage) = false ∧
    (env.configured = true →
      (∀ n, env.provider imageBase64 n = .notOk (statusOf n) (stOf n) (emOf n)) →
      extractTextFromImageBase64Run env imageBase64 opts
        = (.error (imageExhausted (opts.maxRetries.getD 3)
            (some (visionApiNotOkError (statusOf (opts.maxRetries.getD 3))
              (stOf (opts.maxRetries.getD 3)) (emOf (opts.maxRetries.getD 3))))),
           opts.maxRetries.getD 3 + 1)) := by
  refine ⟨rfl, rfl, ?_⟩
  intro hconf hp
  unfold extractTextFromImageBase64Run
  simp only [hconf, if_true]
  rw [retryLoop_transient_exhausts _ _ _
      (fun n => visionApiNotOkError (statusOf n) (stOf n) (emOf n))
      (fun n => by rw [hp n]; rfl) (fun n => rfl)
      (opts.maxRetries.getD 3) 0 none,
    Nat.zero_add]

/-! C3, C4, C8, C9 -/

theorem pdfAttemptBody_char (env : VisionEnv) (pdfUrl : String)
    (opts : ExtractTextOptions) (attempt : Nat) (buf : PdfBuffer) (rawText : String)
    (hok : env.pdfParseOk = true)
    (hdl : env.pdfDownload pdfUrl attempt = .ok buf)
    (hparse : buf.parseText = .ok rawText) :
    pdfAttemptBody env pdfUrl opts attempt
      = (if (jsTrim rawText).length < 50 then
          match pdfOcrFallback env buf opts (jsTrim rawText) with
          | .ok t => Except.ok t
          | .error _ => Except.ok (jsTrim rawText)
         else Except.ok (jsTrim rawText)) := by
  unfold pdfAttemptBody
  simp only [hok, if_true, hdl, hparse]

/-- C3: when the trimmed text layer has length at least 50 the call returns
it immediately, for every environment — the fallback is never entered; when
it is shorter than 50, the result is exactly what the (caught) fallback
yields; and when the image recoverer yields zero candidates the original
(possibly short) text is returned. -/
theorem pdf_threshold_and_fallback_entry (env : VisionEnv) (pdfUrl : String)
    (opts : ExtractTextOptions) (buf : PdfBuffer) (rawText : String)
    (hok : env.pdfParseOk = true)
    (hdl : env.pdfDownload pdfUrl 0 = .ok buf)
    (hparse : buf.parseText = .ok rawText) :
    (50 ≤ (jsTrim rawText).length →
      extractTextFromPdf env pdfUrl opts = .ok (jsTrim rawText)) ∧
    ((jsTrim rawText).length < 50 →
      extractTextFromPdf env pdfUrl opts =
        .ok (match pdfOcrFallback env buf opts (jsTrim rawText) with
             | .ok t => t
             | .error _ => jsTrim rawText)) ∧
    ((jsTrim rawText).length < 50 → extractImagesFromPdf env.inflate buf = [] →
      extractTextFromPdf env pdfUrl opts = .ok (jsTrim rawText)) := by
  have hb := pdfAttemptBody_char env pdfUrl opts 0 buf rawText hok hdl hparse
  refine ⟨?_, ?_, ?_⟩
  · intro h50
    apply extractTextFromPdf_of_body_ok
    rw [hb, if_neg (Nat.not_lt.mpr h50)]
  · intro h50
    apply extractTextFromPdf_of_body_ok
    rw [hb, if_pos h50]
    cases pdfOcrFallback env buf opts (jsTrim rawText) with
    | ok t => rfl
    | error e => rfl
  · intro h50 hempty
    have hfb : pdfOcrFallback env buf opts (jsTrim rawText) = .ok (jsTrim rawText) := by
      unfold pdfOcrFallback
      rw [hempty]
      rfl
    apply extractTextFromPdf_of_body_ok
    rw [hb, if_pos h50, hfb]

theorem pdf_threshold_and_fallback_entry_witness :
    (jsTrim text49).length = 49 ∧
    extractTextFromPdf env49 "doc.pdf" {} = .ok ocr60 ∧
    (jsTrim text50).length = 50 ∧
    extractTextFromPdf env50 "doc.pdf" {} = .ok text50 := by
  refine ⟨by decide, ?_, by decide, ?_⟩
  · have h := (pdf_threshold_and_fallback_entry env49 "doc.pdf" {} buf49 text49
      rfl rfl rfl).2.1 (by decide)
    rw [h]
    rfl
  · have h := (pdf_threshold_and_fallback_entry env50 "doc.pdf" {} buf50 text50
      rfl rfl rfl).1 (by decide)
    rw [h]
    rfl

/-- C4: in the fallback, per-candidate results with empty trim are
discarded, the rest are joined with a blank-line separator, and the joined
text is returned when strictly longer than the text-layer result, else the
original is returned. -/
theorem pdf_fallback_acceptance (env : VisionEnv) (pdfUrl : String)
    (opts : ExtractTextOptions) (buf : PdfBuffer) (rawText : String)
    (ocrResults : List String)
    (hok : env.pdfParseOk = true)
    (hdl : env.pdfDownload pdfUrl 0 = .ok buf)
    (hparse : buf.parseText = .ok rawText)
    (h50 : (jsTrim rawText).length < 50)
    (hcand : (extractImagesFromPdf env.inflate buf).length > 0)
    (hocr : (extractImagesFromPdf env.inflate buf).mapM
        (fun base64 => extractTextFromImageBase64 env base64 opts) = .ok ocrResults) :
    ((String.intercalate "\n\n"
        (ocrResults.filter (fun t => (jsTrim t).length > 0))).length
          > (jsTrim rawText).length →
      extractTextFromPdf env pdfUrl opts =
        .ok (String.intercalate "\n\n"
          (ocrResults.filter (fun t => (jsTrim t).length > 0)))) ∧
    (¬ (String.intercalate "\n\n"
        (ocrResults.filter (fun t => (jsTrim t).length > 0))).length
          > (jsTrim rawText).length →
      extractTextFromPdf env pdfUrl opts = .ok (jsTrim rawText)) := by
  have hb := pdfAttemptBody_char env pdfUrl opts 0 buf rawText hok hdl hparse
  constructor
  · intro hlen
    have hfb : pdfOcrFallback env buf opts (jsTrim rawText)
        = .ok (String.intercalate "\n\n"
            (ocrResults.filter (fun t => (jsTrim t).length > 0))) := by
      unfold pdfOcrFallback
      rw [if_pos hcand, hocr]
      simp only
      rw [if_pos hlen]
    apply extractTextFromPdf_of_body_ok
    rw [hb, if_pos h50, hfb]
  · intro hlen
    have hfb : pdfOcrFallback env buf opts (jsTrim rawText) = .ok (jsTrim rawText) := by
      unfold pdfOcrFallback
      rw [if_pos hcand, hocr]
      simp only
      rw [if_neg hlen]
    apply extractTextFromPdf_of_body_ok
    rw [hb, if_pos h50, hfb]

theorem pdf_fallback_acceptance_witness :
    extractTextFromPdf envLonger "d.pdf" {} = .ok "longerOK" ∧
    extractTextFromPdf envHi "d.pdf" {} = .ok "short" := by
  constructor
  · exact (pdf_fallback_acceptance envLonger "d.pdf" {} bufShort "short" ["longerOK"]
      rfl rfl rfl (by decide) (by decide) rfl).1 (by decide)
  · exact (pdf_fallback_acceptance envHi "d.pdf" {} bufShort "short" ["hi!"]
      rfl rfl rfl (by decide) (by decide) rfl).2 (by decide)

/-- C8: once the text layer extracts, `extractTextFromPdf` cannot fail
because of the fallback path: the call returns some text, and whenever the
fallback computation errors the original text-layer result is returned. -/
theorem pdf_fallback_errors_caught (env : VisionEnv) (pdfUrl : String)
    (opts : ExtractTextOptions) (buf : PdfBuffer) (rawText : String)
    (hok : env.pdfParseOk = true)
    (hdl : env.pdfDownload pdfUrl 0 = .ok buf)
    (hparse : buf.parseText = .ok rawText) :
    (∃ t, extractTextFromPdf env pdfUrl opts = .ok t) ∧
    (∀ e, pdfOcrFallback env buf opts (jsTrim rawText) = .error e →
      extractTextFromPdf env pdfUrl opts = .ok (jsTrim rawText)) := by
  have hb := pdfAttemptBody_char env pdfUrl opts 0 buf rawText hok hdl hparse
  constructor
  · by_cases h50 : (jsTrim rawText).length < 50
    · cases hfb : pdfOcrFallback env buf opts (jsTrim rawText) with
      | ok t =>
        exact ⟨t, extractTextFromPdf_of_body_ok _ _ _ _ (by rw [hb, if_pos h50, hfb])⟩
      | error e =>
        exact ⟨jsTrim rawText,
          extractTextFromPdf_of_body_ok _ _ _ _ (by rw [hb, if_pos h50, hfb])⟩
    · exact ⟨jsTrim rawText,
        extractTextFromPdf_of_body_ok _ _ _ _ (by rw [hb, if_neg h50])⟩
  · intro e he
    by_cases h50 : (jsTrim rawText).length < 50
    · exact extractTextFromPdf_of_body_ok _ _ _ _ (by rw [hb, if_pos h50, he])
    · exact extractTextFromPdf_of_body_ok _ _ _ _ (by rw [hb, if_neg h50])

theorem pdf_fallback_errors_caught_witness :
    pdfOcrFallback envC8 bufShort {} (jsTrim "short")
      = .error (imageExhausted 3
          (some (visionApiNotOkError 500 "Internal Server Error" ""))) ∧
    extractTextFromPdf envC8 "u.pdf" {} = .ok "short" :=
  ⟨rfl,
   (pdf_fallback_errors_caught envC8 "u.pdf" {} bufShort "short" rfl rfl rfl).2
     (imageExhausted 3 (some (visionApiNotOkError 500 "Internal Server Error" ""))) rfl⟩

/-- C9 counterexample: a JPEG-family candidate whose Flate decompression
errors is NOT skipped: the recovery returns it (with its original bytes)
rather than the empty sequence. -/
theorem inflate_error_candidate_kept_cex :
    extractImagesFromPdf (fun _ => .error "invalid data") bufC9
      = [encodeBase64 [1, 2, 3]] ∧
    extractImagesFromPdf (fun _ => .error "invalid data") bufC9 ≠ [] :=
  ⟨rfl, by decide⟩

/-- C9 amended: the recovery never throws — a load/enumeration failure
degrades to the empty sequence — and a JPEG-family candidate whose Flate
decompression errors is retained with its original (non-inflated) bytes
rather than skipped. -/
theorem recover_images_degrades_not_skips
    (inflate : List Nat → Except String (List Nat)) (buf : PdfBuffer)
    (msg err : String) (s : PdfRawStream) :
    (buf.loadObjects = .error msg → extractImagesFromPdf inflate buf = []) ∧
    (s.typeName = some "XObject" → s.subtypeName = some "Image" →
      (classifyFilter s.filter).1 = true → (classifyFilter s.filter).2 = true →
      inflate s.contents = .error err →
      processPdfObj inflate (.rawStream s) = some (encodeBase64 s.contents)) := by
  constructor
  · intro h
    unfold extractImagesFromPdf
    rw [h]
  · intro h1 h2 hj hf hi
    simp only [processPdfObj, h1, h2, hj, hf, hi]
    rfl

theorem recover_images_degrades_not_skips_witness :
    bufC9bad.loadObjects = .error "Failed to parse PDF document" ∧
    extractImagesFromPdf (fun _ => .error "invalid data") bufC9bad = [] ∧
    processPdfObj (fun _ => .error "invalid data") (.rawStream sC9)
      = some (encodeBase64 sC9.contents) :=
  ⟨rfl,
   (recover_images_degrades_not_skips (fun _ => .error "invalid data") bufC9bad
       "Failed to parse PDF document" "invalid data" sC9).1 rfl,
   (recover_images_degrades_not_skips (fun _ => .error "invalid data") bufC9bad
       "Failed to parse PDF document" "invalid data" sC9).2 rfl rfl rfl rfl rfl⟩

theorem provider_notOk_always_transient_witness :
    envC2.configured = true ∧
    extractTextFromImageBase64Run envC2 "img" { maxRetries := some 2 }
      = (.error (imageExhausted 2
          (some (visionApiNotOkError 404 "Not Found" ""))), 3) :=
  ⟨rfl,
   (provider_notOk_always_transient true 404 "Not Found" "" envC2 "img"
       { maxRetries := some 2 } (fun _ => 404) (fun _ => "Not Found")
       (fun _ => "")).2.2 rfl (fun _ => rfl)⟩

end SynapseyVision
